import Mathlib

/-!
Shallow embedding of the dashboard aggregation logic of the finan repository.

Two dashboard variants exist in the source: the explicit month/year selector
variant in `src/pages/Dashboard.tsx` and the legacy current-month variant
embedded in `src/lib/supabase.ts`.  Monetary values are modelled as rationals;
the JavaScript runtime value of a `valor` cell is modelled by `JSVal` so that
SQL nulls and non-numeric cells (NaN after `Number` coercion) are
representable.  Date strings `YYYY-MM-DD` are modelled as (year, month, day)
triples; the gateway's `gte`/`lte` on zero-padded date strings is their
lexicographic comparison.
-/

namespace Finan

/-- Runtime value of a `valor` cell as delivered by the gateway: a number,
an SQL null, or a non-numeric value (which `Number(...)` turns into NaN). -/
inductive JSVal where
  | num (q : ℚ)
  | jsnull
  | nan
deriving DecidableEq

/-- Zero coercion `(t.valor || 0)` (Dashboard.tsx) resp. `(Number(t.valor) || 0)`
(legacy variant).  `null` and `NaN` are falsy in JavaScript, so both coerce to
`0`; a numeric `0` is also falsy and yields `0`, so on numbers the coercion is
the identity.  Because every element passes through this coercion before being
added, the running sum of the reduce is always a real number, never NaN. -/
def JSVal.coerce0 : JSVal → ℚ
  | .num q => q
  | .jsnull => 0
  | .nan => 0

/-- Calendar date `YYYY-MM-DD` (year, month 1-12 as printed, day). -/
structure Date where
  year : ℕ
  month : ℕ
  day : ℕ
deriving DecidableEq

/-- Lexicographic comparison of dates, matching `gte`/`lte` on the zero-padded
date strings used by the queries. -/
def Date.le (a b : Date) : Bool :=
  decide (a.year < b.year) ||
    (decide (a.year = b.year) && (decide (a.month < b.month) ||
      (decide (a.month = b.month) && decide (a.day ≤ b.day))))

/-- Row of the `transacoes` collection (field names and nullability as in the
`Transacao` interface of Dashboard.tsx).  `created_at` is an abstract creation
timestamp used only for ordering in the legacy variant. -/
structure Transacao where
  id : ℕ
  created_at : ℕ
  quando : Option Date
  estabelecimento : Option String
  valor : JSVal
  detalhes : Option String
  tipo : Option String
  categoria : Option String
  userid : Option String
deriving DecidableEq

/-- Row of the `lembretes` collection (as in the `Lembrete` interface). -/
structure Lembrete where
  id : ℕ
  created_at : ℕ
  userid : Option String
  descricao : Option String
  data : Option Date
  valor : JSVal
deriving DecidableEq

abbrev UserId := String

/-- Income total, from both variants:
`transacoes.filter(t => t.tipo === 'receita').reduce((sum, t) => sum + (t.valor || 0), 0)`. -/
def receitas (ts : List Transacao) : ℚ :=
  (ts.filter fun t => decide (t.tipo = some "receita")).foldl
    (fun acc t => acc + t.valor.coerce0) 0

/-- Expense total, from both variants:
`transacoes.filter(t => t.tipo === 'despesa').reduce((sum, t) => sum + (t.valor || 0), 0)`. -/
def despesas (ts : List Transacao) : ℚ :=
  (ts.filter fun t => decide (t.tipo = some "despesa")).foldl
    (fun acc t => acc + t.valor.coerce0) 0

/-- The `DashboardStats` record of Dashboard.tsx. -/
structure DashboardStats where
  totalReceitas : ℚ
  totalDespesas : ℚ
  saldo : ℚ
  transacoesCount : ℕ
  lembretesCount : ℕ
deriving DecidableEq

/-- Initial `useState` value of `stats` in Dashboard.tsx: everything zero. -/
def initialStats : DashboardStats :=
  { totalReceitas := 0, totalDespesas := 0, saldo := 0
    transacoesCount := 0, lembretesCount := 0 }

/-- The `newStats` computation of Dashboard.tsx lines 114-124: partition by
`tipo`, sum with zero coercion, `saldo = receitas - despesas`, counts are the
lengths of the fetched lists. -/
def computeStats (ts : List Transacao) (ls : List Lembrete) : DashboardStats :=
  { totalReceitas := receitas ts
    totalDespesas := despesas ts
    saldo := receitas ts - despesas ts
    transacoesCount := ts.length
    lembretesCount := ls.length }

/-- Component state of Dashboard.tsx that the fetch updates: the stats record,
the raw transaction and reminder lists, and the loading flag. -/
structure DashState where
  stats : DashboardStats
  transacoes : List Transacao
  lembretes : List Lembrete
  loading : Bool
deriving DecidableEq

/-- Initial component state: zero stats, empty lists, `loading = true`. -/
def initialState : DashState :=
  { stats := initialStats, transacoes := [], lembretes := [], loading := true }

/-- Names of the two gateway queries a fetch may issue. -/
inductive QueryName where
  | transacoesQ
  | lembretesQ
deriving DecidableEq

/-- Result of one invocation of `fetchDashboardData`: the component state after
the invocation, the list of gateway queries actually issued (in order), and the
error toast shown, if any. -/
structure FetchOutcome where
  state : DashState
  issued : List QueryName
  toast : Option String
deriving DecidableEq

/-- Guard `!user?.id`: an absent user, a null id or an empty id string are all
falsy in JavaScript. -/
def hasUserId : Option UserId → Bool
  | none => false
  | some s => !s.isEmpty

/-- Model of `fetchDashboardData` of Dashboard.tsx.  The gateway responses for
the two queries are passed in as `Except` values (error object or row list).
Control flow of the source: the no-user guard returns early (only clearing
`loading`, issuing nothing and showing no toast); a transactions error throws
before the reminders query is issued; a reminders error throws before any
`set*` call; only the all-success path updates the lists and the stats, and it
updates all of them; the `finally` clears `loading` on every path; the `catch`
shows exactly one toast carrying the error message. -/
def fetchDashboardData (user : Option UserId)
    (txRes : Except String (List Transacao))
    (lemRes : Except String (List Lembrete))
    (s : DashState) : FetchOutcome :=
  if hasUserId user then
    match txRes with
    | .error e =>
        { state := { s with loading := false }
          issued := [.transacoesQ], toast := some e }
    | .ok ts =>
        match lemRes with
        | .error e =>
            { state := { s with loading := false }
              issued := [.transacoesQ, .lembretesQ], toast := some e }
        | .ok ls =>
            { state := { stats := computeStats ts ls, transacoes := ts
                         lembretes := ls, loading := false }
              issued := [.transacoesQ, .lembretesQ], toast := none }
  else
    { state := { s with loading := false }, issued := [], toast := none }

/-- The three top-level views Dashboard.tsx can render. -/
inductive View where
  | loadingView
  | noIdentityView
  | mainView
deriving DecidableEq

/-- Render logic of Dashboard.tsx: the loading skeleton takes precedence, then
the no-user screen, then the main dashboard. -/
def render (user : Option UserId) (s : DashState) : View :=
  if s.loading then .loadingView
  else if hasUserId user then .mainView
  else .noIdentityView

/-- The `DashboardStats` record of the legacy variant in supabase.ts. -/
structure DashboardStatsLegacy where
  totalReceitas : ℚ
  totalDespesas : ℚ
  saldo : ℚ
  transacoesRecentes : List Transacao
  lembretesProximos : List Lembrete
deriving DecidableEq

/-- The `setStats` payload of the legacy variant: same totals and balance
(`Number(t.valor) || 0` coerces exactly like `t.valor || 0` on these values),
`transacoesRecentes = transacoes?.slice(0, 5)`, and the reminders stored as
fetched (the reminders query itself carries `.limit(5)`). -/
def computeStatsLegacy (ts : List Transacao) (ls : List Lembrete) :
    DashboardStatsLegacy :=
  { totalReceitas := receitas ts
    totalDespesas := despesas ts
    saldo := receitas ts - despesas ts
    transacoesRecentes := ts.take 5
    lembretesProximos := ls }

/-- Eligibility filter of the legacy reminders query:
`eq('userid', uid)` and `gte('data', today)`; an SQL null date satisfies no
range bound. -/
def lembreteEligible (uid : UserId) (today : Date) (l : Lembrete) : Bool :=
  decide (l.userid = some uid) &&
    (match l.data with
     | some d => today.le d
     | none => false)

/-- Ascending order on the `data` column used by `order('data', ascending)`;
nulls sort last (the gateway default), though the filter has removed them. -/
def dataAsc (a b : Lembrete) : Bool :=
  match a.data, b.data with
  | some da, some db => da.le db
  | some _, none => true
  | none, none => true
  | none, some _ => false

/-- Legacy reminders query: filter by owner and `data >= today`, order by
`data` ascending, `.limit(5)`. -/
def queryLembretesLegacy (table : List Lembrete) (uid : UserId) (today : Date) :
    List Lembrete :=
  (((table.filter (lembreteEligible uid today)).mergeSort dataAsc).take 5)

/-- Gregorian leap-year rule, as implemented by the JavaScript Date object. -/
def isLeap (y : ℕ) : Bool :=
  (decide (y % 4 = 0) && decide (y % 100 ≠ 0)) || decide (y % 400 = 0)

/-- Number of days of month `m` (1-12) of year `y`; in JavaScript
`new Date(y, m, 0).getDate()` evaluates to exactly this for month `m` of the
0-based index `m - 1`. -/
def daysInMonth (y m : ℕ) : ℕ :=
  if m = 2 then (if isLeap y then 29 else 28)
  else if m = 4 ∨ m = 6 ∨ m = 9 ∨ m = 11 then 30
  else 31

/-- Corrected policy range start, Dashboard.tsx line 74:
`new Date(parseInt(filterYear), parseInt(filterMonth), 1)` with 0-based month
index `mIdx`, printed as the date string `y-(mIdx+1)-01`. -/
def startDateOf (y mIdx : ℕ) : Date := ⟨y, mIdx + 1, 1⟩

/-- Corrected policy range end, Dashboard.tsx line 75:
`new Date(parseInt(filterYear), parseInt(filterMonth) + 1, 0, 23, 59, 59)`,
day 0 of the following month, i.e. the last real day of the selected month. -/
def endDateOf (y mIdx : ℕ) : Date := ⟨y, mIdx + 1, daysInMonth y (mIdx + 1)⟩

/-- Legacy policy lower bound: the literal string `${currentMonth}-01`. -/
def legacyStart (y m : ℕ) : Date := ⟨y, m, 1⟩

/-- Legacy policy upper bound: the literal string `${currentMonth}-31`,
with no clamping to the real length of the month. -/
def legacyEnd (y m : ℕ) : Date := ⟨y, m, 31⟩

/-- Inclusive range check `gte(lo) && lte(hi)` on date strings. -/
def inRange (lo hi d : Date) : Bool := lo.le d && d.le hi

/-- Date filter applied to a transaction row by the transactions query; a null
`quando` satisfies no range bound. -/
def quandoInRange (lo hi : Date) (t : Transacao) : Bool :=
  match t.quando with
  | some d => inRange lo hi d
  | none => false

/-- Valid calendar date: month 1-12, day within the real length of the month. -/
def validDate (d : Date) : Prop :=
  1 ≤ d.month ∧ d.month ≤ 12 ∧ 1 ≤ d.day ∧ d.day ≤ daysInMonth d.year d.month

/-- Row of the `profiles` collection read by UserProfile.tsx. -/
structure Profile where
  nome : String
  phone : String
  avatar_url : Option String
deriving DecidableEq

/-- State transition of `fetchProfile` of UserProfile.tsx: on success the
profile is stored; on a query error (including `.single()` finding no row) the
error is only logged and the profile state is left unchanged.  The function is
total: no outcome propagates an exception to the caller. -/
def fetchProfile (res : Except String Profile) (profile : Option Profile) :
    Option Profile :=
  match res with
  | .ok p => some p
  | .error _ => profile

/-- Initials computation of UserProfile.tsx:
`name.split(' ').map(n => n[0]).join('').toUpperCase().slice(0, 2)`
(an empty word contributes nothing, since `join` renders `undefined` as the
empty string). -/
def getInitials (name : String) : String :=
  ((((name.splitOn " ").map fun n => n.take 1).foldl
    (fun acc s => acc ++ s) "").toUpper).take 2

/-- Rendered card of UserProfile.tsx. -/
structure ProfileView where
  avatarUrl : Option String
  initials : String
  nome : String
  phone : String
deriving DecidableEq

/-- Render of UserProfile.tsx: `if (!profile) return null`, otherwise the card
built from the loaded profile. -/
def renderUserProfile : Option Profile → Option ProfileView
  | none => none
  | some p => some ⟨p.avatar_url, getInitials p.nome, p.nome, p.phone⟩

/-- Spec-side definition, following the words of testable property 1:
`totalIncome = sum(amount for t in T if t.kind == income)`, with the
zero-coercion invariant of the data-model section applied to each amount. -/
def specTotalIncome (ts : List Transacao) : ℚ :=
  ((ts.filter fun t => decide (t.tipo = some "receita")).map
    fun t => t.valor.coerce0).sum

/-- Spec-side definition, following the words of testable property 1:
`totalExpense = sum(amount for t in T if t.kind == expense)`. -/
def specTotalExpense (ts : List Transacao) : ℚ :=
  ((ts.filter fun t => decide (t.tipo = some "despesa")).map
    fun t => t.valor.coerce0).sum

/-- Signed sum over all fetched transactions: income counted positively,
every other row negatively. -/
def signedSumAll (ts : List Transacao) : ℚ :=
  ts.foldl
    (fun acc t =>
      acc + (if t.tipo = some "receita" then t.valor.coerce0 else -t.valor.coerce0)) 0

theorem foldl_add_map_sum {α : Type} (f : α → ℚ) (l : List α) (a : ℚ) :
    l.foldl (fun acc t => acc + f t) a = a + (l.map f).sum := by
  induction l generalizing a with
  | nil => simp
  | cons x xs ih => simp [ih, add_assoc]

theorem receitas_eq_spec (ts : List Transacao) : receitas ts = specTotalIncome ts := by
  simp [receitas, specTotalIncome, foldl_add_map_sum]

theorem despesas_eq_spec (ts : List Transacao) : despesas ts = specTotalExpense ts := by
  simp [despesas, specTotalExpense, foldl_add_map_sum]

/-- C1: for every list of fetched transactions, in both dashboard variants,
`totalReceitas` is the sum of the (zero-coerced) amounts of the income rows,
`totalDespesas` the sum over the expense rows, and `saldo` is exactly their
difference; on the empty list all three are zero. -/
theorem C1_totals_correct (ts : List Transacao) (ls : List Lembrete) :
    (computeStats ts ls).totalReceitas = specTotalIncome ts ∧
    (computeStats ts ls).totalDespesas = specTotalExpense ts ∧
    (computeStats ts ls).saldo =
      (computeStats ts ls).totalReceitas - (computeStats ts ls).totalDespesas ∧
    (computeStatsLegacy ts ls).totalReceitas = specTotalIncome ts ∧
    (computeStatsLegacy ts ls).totalDespesas = specTotalExpense ts ∧
    (computeStatsLegacy ts ls).saldo =
      (computeStatsLegacy ts ls).totalReceitas -
        (computeStatsLegacy ts ls).totalDespesas ∧
    (computeStats [] ls).totalReceitas = 0 ∧
    (computeStats [] ls).totalDespesas = 0 ∧
    (computeStats [] ls).saldo = 0 := by
  refine ⟨receitas_eq_spec ts, despesas_eq_spec ts, rfl,
    receitas_eq_spec ts, despesas_eq_spec ts, rfl, ?_, ?_, ?_⟩ <;>
    simp [computeStats, receitas, despesas]

/-- C2: a transaction whose `valor` is an SQL null or a non-numeric value
contributes exactly 0 to both totals: the `(t.valor || 0)` coercion maps it to
the number 0 before it is added, so no total ever becomes NaN and the fold
over a list containing such records is a total function that completes
normally. -/
theorem C2_zero_coercion (t : Transacao) (ts : List Transacao)
    (h : t.valor = JSVal.jsnull ∨ t.valor = JSVal.nan) :
    t.valor.coerce0 = 0 ∧
    receitas (t :: ts) = receitas ts ∧
    despesas (t :: ts) = despesas ts := by
  have hc : t.valor.coerce0 = 0 := by
    rcases h with h | h <;> rw [h] <;> rfl
  refine ⟨hc, ?_, ?_⟩
  · rw [receitas_eq_spec, receitas_eq_spec, specTotalIncome, specTotalIncome,
      List.filter_cons]
    by_cases ht : t.tipo = some "receita" <;> simp [ht, hc]
  · rw [despesas_eq_spec, despesas_eq_spec, specTotalExpense, specTotalExpense,
      List.filter_cons]
    by_cases ht : t.tipo = some "despesa" <;> simp [ht, hc]

theorem C2_zero_coercion_witness :
    JSVal.coerce0 (Transacao.mk 1 0 none none JSVal.jsnull none (some "receita")
      none (some "a")).valor = 0 ∧
    receitas [Transacao.mk 1 0 none none JSVal.jsnull none (some "receita")
        none (some "a"),
      Transacao.mk 2 0 none none (JSVal.num 7) none (some "receita")
        none (some "a")] =
      receitas [Transacao.mk 2 0 none none (JSVal.num 7) none (some "receita")
        none (some "a")] ∧
    despesas [Transacao.mk 1 0 none none JSVal.jsnull none (some "receita")
        none (some "a"),
      Transacao.mk 2 0 none none (JSVal.num 7) none (some "receita")
        none (some "a")] =
      despesas [Transacao.mk 2 0 none none (JSVal.num 7) none (some "receita")
        none (some "a")] :=
  C2_zero_coercion
    (Transacao.mk 1 0 none none JSVal.jsnull none (some "receita") none (some "a"))
    [Transacao.mk 2 0 none none (JSVal.num 7) none (some "receita") none (some "a")]
    (Or.inl rfl)

/-- C3 counterexample: the aggregation logic applies no owner filter of its
own.  Adding to the raw fetched rows a single income row owned by the other
user "B" changes the stats computed for the requesting user (total income
becomes 100 instead of 0), refuting the claim that the result is unchanged by
adding another owner's records to the fetched row set. -/
theorem C3_counterexample :
    (computeStats [Transacao.mk 1 0 none none (JSVal.num 100) none
        (some "receita") none (some "B")] []).totalReceitas = 100 ∧
    (computeStats ([] : List Transacao) []).totalReceitas = 0 ∧
    (100 : ℚ) ≠ 0 := by
  refine ⟨?_, rfl, by norm_num⟩
  show (0 : ℚ) + 100 = 100
  norm_num

/-- C3 amended: owner isolation is enforced only by the gateway-level
`eq('userid', user.id)` filter, not inside the aggregation.  Under the
gateway postcondition that every fetched row is owned by the requesting user
A, no record of a distinct owner B influences the result: filtering B's rows
out of the fetched set leaves the computed stats unchanged. -/
theorem C3_amended (A B : UserId) (hAB : B ≠ A) (ts : List Transacao)
    (ls : List Lembrete) (hA : ∀ t ∈ ts, t.userid = some A) :
    computeStats (ts.filter fun t => decide (t.userid ≠ some B)) ls =
      computeStats ts ls := by
  have hfil : (ts.filter fun t => decide (t.userid ≠ some B)) = ts := by
    apply List.filter_eq_self.mpr
    intro t ht
    simp only [decide_eq_true_eq, hA t ht, Ne, Option.some.injEq]
    intro hEq
    exact hAB hEq.symm
  rw [hfil]

theorem C3_amended_witness :
    computeStats
        ([Transacao.mk 1 0 none none (JSVal.num 3) none (some "receita") none
          (some "a")].filter fun t => decide (t.userid ≠ some "b")) [] =
      computeStats
        [Transacao.mk 1 0 none none (JSVal.num 3) none (some "receita") none
          (some "a")] [] :=
  C3_amended "a" "b" (by decide)
    [Transacao.mk 1 0 none none (JSVal.num 3) none (some "receita") none (some "a")]
    [] (by intro t ht; rw [List.mem_singleton] at ht; rw [ht])

/-- C4 counterexample: the Dashboard.tsx variant performs no truncation at
all: a successful fetch of six transaction rows is stored in full
(`setTransacoes(transacoes || [])`), so the displayed list has length 6, not
`min 5 6 = 5`; hence the default-limit-5 truncation does not hold in both
dashboard variants. -/
theorem C4_counterexample :
    ((fetchDashboardData (some "u")
        (.ok (List.replicate 6
          (Transacao.mk 1 0 none none (JSVal.num 1) none (some "receita") none
            (some "u"))))
        (.ok []) initialState).state.transacoes).length = 6 ∧
    min 5 (List.replicate 6
      (Transacao.mk 1 0 none none (JSVal.num 1) none (some "receita") none
        (some "u"))).length = 5 ∧
    (6 : ℕ) ≠ 5 := by
  refine ⟨?_, by simp, by decide⟩
  simp [fetchDashboardData, show hasUserId (some "u") = true from rfl]

/-- C4 amended: the limit-5 truncation holds only in the legacy
(supabase.ts) variant: there `transacoesRecentes` is the first five rows of
the fetched list (length `min 5 |T|` and a prefix of the fetched order, which
is creation-time descending), and the reminders query carries `.limit(5)`, so
its result has length `min 5 |eligible|`; the Dashboard.tsx variant stores
the full fetched transaction and reminder lists untruncated. -/
theorem C4_amended (ts : List Transacao) (ls : List Lembrete)
    (table : List Lembrete) (uid : UserId) (today : Date) (s : DashState) :
    (computeStatsLegacy ts ls).transacoesRecentes.length = min 5 ts.length ∧
    (computeStatsLegacy ts ls).transacoesRecentes <+: ts ∧
    (queryLembretesLegacy table uid today).length =
      min 5 (table.filter (lembreteEligible uid today)).length ∧
    (computeStatsLegacy ts ls).lembretesProximos = ls ∧
    (fetchDashboardData (some "u") (.ok ts) (.ok ls) s).state.transacoes = ts ∧
    (fetchDashboardData (some "u") (.ok ts) (.ok ls) s).state.lembretes = ls := by
  refine ⟨?_, ?_, ?_, rfl, ?_, ?_⟩
  · simp [computeStatsLegacy]
  · exact List.take_prefix 5 ts
  · simp [queryLembretesLegacy]
  · simp [fetchDashboardData, show hasUserId (some "u") = true from rfl]
  · simp [fetchDashboardData, show hasUserId (some "u") = true from rfl]

/-- C5: with an authenticated user, if the transactions query fails the
reminders query is never issued, the prior visible state (stats, transaction
list, reminder list) is untouched and exactly one toast is shown; if the
transactions query succeeds and the reminders query fails, both queries were
issued but the state is still untouched and one toast is shown; only when both
succeed is the complete new summary installed, with no toast. -/
theorem C5_failure_atomicity (u : UserId) (hu : hasUserId (some u) = true)
    (txRes : Except String (List Transacao))
    (lemRes : Except String (List Lembrete)) (s : DashState) :
    (∀ e, txRes = .error e →
      (fetchDashboardData (some u) txRes lemRes s).state.stats = s.stats ∧
      (fetchDashboardData (some u) txRes lemRes s).state.transacoes = s.transacoes ∧
      (fetchDashboardData (some u) txRes lemRes s).state.lembretes = s.lembretes ∧
      (fetchDashboardData (some u) txRes lemRes s).issued = [QueryName.transacoesQ] ∧
      (fetchDashboardData (some u) txRes lemRes s).toast = some e) ∧
    (∀ ts e, txRes = .ok ts → lemRes = .error e →
      (fetchDashboardData (some u) txRes lemRes s).state.stats = s.stats ∧
      (fetchDashboardData (some u) txRes lemRes s).state.transacoes = s.transacoes ∧
      (fetchDashboardData (some u) txRes lemRes s).state.lembretes = s.lembretes ∧
      (fetchDashboardData (some u) txRes lemRes s).issued =
        [QueryName.transacoesQ, QueryName.lembretesQ] ∧
      (fetchDashboardData (some u) txRes lemRes s).toast = some e) ∧
    (∀ ts ls, txRes = .ok ts → lemRes = .ok ls →
      (fetchDashboardData (some u) txRes lemRes s).state.stats = computeStats ts ls ∧
      (fetchDashboardData (some u) txRes lemRes s).state.transacoes = ts ∧
      (fetchDashboardData (some u) txRes lemRes s).state.lembretes = ls ∧
      (fetchDashboardData (some u) txRes lemRes s).toast = none) := by
  refine ⟨?_, ?_, ?_⟩
  · intro e he
    subst he
    simp [fetchDashboardData, hu]
  · intro ts e hts he
    subst hts
    subst he
    simp [fetchDashboardData, hu]
  · intro ts ls hts hls
    subst hts
    subst hls
    simp [fetchDashboardData, hu]

theorem C5_failure_atomicity_witness :
    (fetchDashboardData (some "u") (.error "boom") (.ok []) initialState).state.stats =
      initialState.stats ∧
    (fetchDashboardData (some "u") (.error "boom") (.ok []) initialState).issued =
      [QueryName.transacoesQ] ∧
    (fetchDashboardData (some "u") (.error "boom") (.ok []) initialState).toast =
      some "boom" := by
  have h :=
    (C5_failure_atomicity "u" rfl (.error "boom") (.ok []) initialState).1 "boom" rfl
  exact ⟨h.1, h.2.2.2.1, h.2.2.2.2⟩

/-- C6: with no authenticated user the fetch guard returns early: no gateway
query is issued, no error toast is shown, and starting from the initial state
the stats stay at their zero values with both lists empty; after the guard has
cleared the loading flag the component renders the distinct no-identity
screen, which differs from both the loading skeleton and the main view. -/
theorem C6_no_identity (txRes : Except String (List Transacao))
    (lemRes : Except String (List Lembrete)) :
    (fetchDashboardData none txRes lemRes initialState).issued = [] ∧
    (fetchDashboardData none txRes lemRes initialState).toast = none ∧
    (fetchDashboardData none txRes lemRes initialState).state.stats = initialStats ∧
    (fetchDashboardData none txRes lemRes initialState).state.transacoes = [] ∧
    (fetchDashboardData none txRes lemRes initialState).state.lembretes = [] ∧
    render none (fetchDashboardData none txRes lemRes initialState).state =
      View.noIdentityView ∧
    View.noIdentityView ≠ View.loadingView ∧
    View.noIdentityView ≠ View.mainView := by
  refine ⟨?_, ?_, ?_, ?_, ?_, ?_, by decide, by decide⟩ <;>
    simp [fetchDashboardData, hasUserId, render, initialState]

/-- C7: for April of any year, the corrected policy of Dashboard.tsx computes
the range first-of-month through the real last day (April 30), so a
transaction dated on the last day passes the query's date filter; the legacy
policy's upper bound is the literal day 31 with no clamping, and on valid
April dates its range test agrees with the corrected one: the lexical tail
between day 30 and day 31 contains no real date. -/
theorem C7_month_range (y : ℕ) (t : Transacao)
    (ht : t.quando = some ⟨y, 4, 30⟩) (d : Date) (hd : validDate d)
    (hdy : d.year = y) (hdm : d.month = 4) :
    endDateOf y 3 = ⟨y, 4, 30⟩ ∧
    quandoInRange (startDateOf y 3) (endDateOf y 3) t = true ∧
    (legacyEnd y 4).day = 31 ∧
    inRange (legacyStart y 4) (legacyEnd y 4) d =
      inRange (startDateOf y 3) (endDateOf y 3) d := by
  have h30 : daysInMonth y 4 = 30 := by simp [daysInMonth]
  have hend : endDateOf y 3 = ⟨y, 4, 30⟩ := by simp [endDateOf, h30]
  obtain ⟨hm1, hm2, hd1, hd2⟩ := hd
  rw [hdm, hdy, h30] at hd2
  refine ⟨hend, ?_, rfl, ?_⟩
  · rw [hend]
    simp only [quandoInRange, ht, inRange, startDateOf, Date.le,
      Bool.and_eq_true, Bool.or_eq_true, decide_eq_true_eq, true_and,
      lt_self_iff_false, false_or]
    omega
  · rw [hend]
    have hL : inRange (legacyStart y 4) (legacyEnd y 4) d = true := by
      simp only [inRange, legacyStart, legacyEnd, Date.le, Bool.and_eq_true,
        Bool.or_eq_true, decide_eq_true_eq, true_and, lt_self_iff_false,
        false_or]
      omega
    have hR : inRange (startDateOf y 3) ⟨y, 4, 30⟩ d = true := by
      simp only [inRange, startDateOf, Date.le, Bool.and_eq_true,
        Bool.or_eq_true, decide_eq_true_eq, true_and, lt_self_iff_false,
        false_or]
      omega
    rw [hL, hR]

theorem C7_month_range_witness :
    endDateOf 2026 3 = ⟨2026, 4, 30⟩ ∧
    quandoInRange (startDateOf 2026 3) (endDateOf 2026 3)
      (Transacao.mk 1 0 (some ⟨2026, 4, 30⟩) none (JSVal.num 1) none
        (some "receita") none (some "a")) = true ∧
    (legacyEnd 2026 4).day = 31 ∧
    inRange (legacyStart 2026 4) (legacyEnd 2026 4) ⟨2026, 4, 15⟩ =
      inRange (startDateOf 2026 3) (endDateOf 2026 3) ⟨2026, 4, 15⟩ :=
  C7_month_range 2026
    (Transacao.mk 1 0 (some ⟨2026, 4, 30⟩) none (JSVal.num 1) none
      (some "receita") none (some "a"))
    rfl ⟨2026, 4, 15⟩ (by refine ⟨?_, ?_, ?_, ?_⟩ <;> simp [daysInMonth]) rfl rfl

/-- C8: evaluation at the failing interleaving.  The component has no
stale-response protection: a completed fetch installs its result
unconditionally, with no request-generation tag.  So when the response for the
superseded parameter set P1 (a month holding one income transaction of 100)
resolves after the response for the newer parameter set P2 (an empty month)
has already been applied, the finally displayed total income is P1's 100,
although the summary for P2 has total income 0. -/
theorem C8_stale_overwrite :
    ((fetchDashboardData (some "u")
        (.ok [Transacao.mk 1 0 none none (JSVal.num 100) none (some "receita")
          none (some "u")])
        (.ok [])
        ((fetchDashboardData (some "u") (.ok []) (.ok [])
          initialState).state)).state.stats.totalReceitas = 100) ∧
    (computeStats ([] : List Transacao) []).totalReceitas = 0 ∧
    (100 : ℚ) ≠ 0 := by
  refine ⟨?_, rfl, by norm_num⟩
  simp [fetchDashboardData, show hasUserId (some "u") = true from rfl,
    computeStats, receitas, despesas, JSVal.coerce0]

/-- C9: a transaction whose `tipo` is neither receita nor despesa contributes
0 to both totals but is still counted in `transacoesCount` and kept in the
stored transaction list; consequently the balance can differ from any signed
sum taken over all fetched transactions (both sign conventions). -/
theorem C9_other_tipo (t : Transacao) (ts : List Transacao) (ls : List Lembrete)
    (h1 : t.tipo ≠ some "receita") (h2 : t.tipo ≠ some "despesa") :
    receitas (t :: ts) = receitas ts ∧
    despesas (t :: ts) = despesas ts ∧
    (computeStats (t :: ts) ls).transacoesCount =
      (computeStats ts ls).transacoesCount + 1 ∧
    (fetchDashboardData (some "u") (.ok (t :: ts)) (.ok ls)
      initialState).state.transacoes = t :: ts ∧
    (∃ T0 : List Transacao,
      (computeStats T0 []).saldo ≠ signedSumAll T0 ∧
      (computeStats T0 []).saldo ≠ -signedSumAll T0) := by
  refine ⟨?_, ?_, ?_, ?_, ?_⟩
  · rw [receitas_eq_spec, receitas_eq_spec, specTotalIncome, specTotalIncome,
      List.filter_cons]
    simp [h1]
  · rw [despesas_eq_spec, despesas_eq_spec, specTotalExpense, specTotalExpense,
      List.filter_cons]
    simp [h2]
  · simp [computeStats]
  · simp [fetchDashboardData, show hasUserId (some "u") = true from rfl]
  · refine ⟨[Transacao.mk 1 0 none none (JSVal.num 5) none (some "outro") none
      (some "a")], ?_, ?_⟩ <;>
      norm_num [computeStats, receitas, despesas, signedSumAll, JSVal.coerce0,
        List.filter_cons, List.filter_nil,
        show ("outro" : String) ≠ "receita" from by decide,
        show ("outro" : String) ≠ "despesa" from by decide]

theorem C9_other_tipo_witness :
    receitas [Transacao.mk 1 0 none none (JSVal.num 5) none (some "outro") none
        (some "a")] =
      receitas [] ∧
    despesas [Transacao.mk 1 0 none none (JSVal.num 5) none (some "outro") none
        (some "a")] =
      despesas [] ∧
    (computeStats [Transacao.mk 1 0 none none (JSVal.num 5) none (some "outro")
        none (some "a")] []).transacoesCount =
      (computeStats [] []).transacoesCount + 1 ∧
    (fetchDashboardData (some "u")
        (.ok [Transacao.mk 1 0 none none (JSVal.num 5) none (some "outro") none
          (some "a")])
        (.ok []) initialState).state.transacoes =
      [Transacao.mk 1 0 none none (JSVal.num 5) none (some "outro") none
        (some "a")] ∧
    (∃ T0 : List Transacao,
      (computeStats T0 []).saldo ≠ signedSumAll T0 ∧
      (computeStats T0 []).saldo ≠ -signedSumAll T0) :=
  C9_other_tipo
    (Transacao.mk 1 0 none none (JSVal.num 5) none (some "outro") none (some "a"))
    [] [] (by decide) (by decide)

/-- C10: a profile query error (including `.single()` finding no row) is
swallowed locally: the stored profile is unchanged, so from the initial state
it stays `none` and the component renders nothing; the transition is a total
function, so nothing is thrown to the caller; and the component renders a
card exactly when a profile has been loaded, never with a missing profile. -/
theorem C10_profile_error_swallowed (e : String) (p : Profile) :
    (∀ q : Option Profile, fetchProfile (.error e) q = q) ∧
    fetchProfile (.error e) none = none ∧
    renderUserProfile (fetchProfile (.error e) none) = none ∧
    (∀ q : Option Profile, (renderUserProfile q).isSome = q.isSome) ∧
    fetchProfile (.ok p) none = some p := by
  refine ⟨fun q => rfl, rfl, rfl, fun q => ?_, rfl⟩
  cases q <;> rfl

end Finan
